import Mathlib

/-!
Shallow embedding of `scripts/airplane-sim.py`, the SparkBench mini airplane
simulator, together with proofs about its physics step, its inbound message
handler and its per-tick outbound command traffic.

Real-valued quantities of the program are modelled as rationals (`ℚ`); the
Python numeric literals are translated exactly (1.225 = 49/40, 1.2 = 6/5,
0.05 = 1/20).
-/

namespace AirplaneSim

/-- Aircraft mass in kg (`MASS = 900`). -/
def MASS : ℚ := 900

/-- Drag coefficient times frontal area in m² (`CD_A = 1.2`). -/
def CD_A : ℚ := 6 / 5

/-- Thrust at full throttle, servo = 180 (`MAX_THRUST = 2500`). -/
def MAX_THRUST : ℚ := 2500

/-- Thrust at idle, servo = 0 (`IDLE_THRUST = 50`). -/
def IDLE_THRUST : ℚ := 50

/-- Air density in kg/m³ (`RHO = 1.225`). -/
def RHO : ℚ := 49 / 40

/-- Sea-level static pressure in Pa (`STATIC_PRESSURE = 101325`). -/
def STATIC_PRESSURE : ℚ := 101325

/-- Simulation timestep in seconds (`dt = 0.05`). -/
def dt : ℚ := 1 / 20

/-- Python `compute_dynamic_pressure(v)`: qc = 0.5 * rho * V². -/
def compute_dynamic_pressure (v : ℚ) : ℚ :=
  1 / 2 * RHO * v * v

/-- Python `compute_thrust(servo_deg)`: linear thrust model from servo position,
`frac = max(0, min(servo_deg, 180)) / 180.0`,
result `IDLE_THRUST + frac * (MAX_THRUST - IDLE_THRUST)`. -/
def compute_thrust (servo_deg : ℚ) : ℚ :=
  IDLE_THRUST + max 0 (min servo_deg 180) / 180 * (MAX_THRUST - IDLE_THRUST)

/-- Python `compute_drag(v)`: D = 0.5 * rho * v * |v| * Cd*A. -/
def compute_drag (v : ℚ) : ℚ :=
  1 / 2 * RHO * v * |v| * CD_A

/-- Python `physics_step()`: advance airspeed by `dtv` seconds from the given
airspeed and throttle angle. The Python function mutates the global
`airspeed_ms` using the globals `throttle_angle` and `dt`; here all three are
explicit arguments and the new airspeed is returned. The final `if` mirrors
`if airspeed_ms < 0: airspeed_ms = 0`. -/
def physics_step (airspeed_ms throttle_angle dtv : ℚ) : ℚ :=
  let thrust := compute_thrust throttle_angle
  let drag := compute_drag airspeed_ms
  let accel := (thrust - drag) / MASS
  let v := airspeed_ms + accel * dtv
  if v < 0 then 0 else v

/-- One entry of the `parts` mapping of an inbound `state` frame: its `type`
string and its optional `angle` attribute (`info.get("angle", 0)` defaults a
missing angle to 0 at the use site). -/
structure PartInfo where
  ptype : String
  angle : Option ℚ
deriving DecidableEq

/-- An inbound frame after `json.loads`, as `on_message` dispatches on it:
`malformed` stands for a payload that raises `json.JSONDecodeError`;
`state` carries the parts mapping in iteration (insertion) order and the
`serial` list; frames whose `type` is none of the recognized ones fall into
`other`. -/
inductive Frame where
  | malformed : Frame
  | ready : Frame
  | state : List (String × PartInfo) → List String → Frame
  | serialData : String → Frame
  | errorData : String → Frame
  | other : Frame
deriving DecidableEq

/-- The mutable simulator state touched by `on_message` and `sim_loop`:
`airspeed_ms`, `throttle_angle` and `last_serial_lines`. -/
structure SimState where
  airspeed_ms : ℚ
  throttle_angle : ℚ
  last_serial_lines : List String
deriving DecidableEq

/-- The servo-extraction loop of the `state` branch of `on_message`:
`for pid, info in parts.items(): if info.get("type") == "wokwi-servo":
throttle_angle = info.get("angle", 0)` — every servo-typed part overwrites
the throttle angle, so the last one in iteration order wins. -/
def servoFold (t : ℚ) (parts : List (String × PartInfo)) : ℚ :=
  parts.foldl (fun acc p => if p.2.ptype = "wokwi-servo" then p.2.angle.getD 0 else acc) t

/-- Python `on_message(ws, message)`: a malformed payload returns at once; a `ready`,
`serial` or `error` frame only prints; a `state` frame rewrites
`throttle_angle` through the servo loop and replaces `last_serial_lines`. -/
def on_message (s : SimState) (f : Frame) : SimState :=
  match f with
  | .malformed => s
  | .ready => s
  | .state parts serialLines =>
      { s with
        throttle_angle := servoFold s.throttle_angle parts
        last_serial_lines := serialLines }
  | .serialData _ => s
  | .errorData _ => s
  | .other => s

/-- A JSON scalar as the outbound frames use them. -/
inductive JVal where
  | str : String → JVal
  | int : ℤ → JVal
deriving DecidableEq

/-- A JSON object as `json.dumps` serializes a Python dict: key/value pairs
in insertion order. -/
abbrev JObj := List (String × JVal)

/-- Python 3 `round` to an integer: round half to even. -/
def pyRound (q : ℚ) : ℤ :=
  let f : ℤ := ⌊q⌋
  let r : ℚ := q - f
  if r < 1 / 2 then f
  else if 1 / 2 < r then f + 1
  else if f % 2 = 0 then f else f + 1

/-- The pitot sensor update of one tick:
`{"cmd": "set-control", "partId": "pitot", "control": "pressure",
"value": round(pitot_pressure)}`. -/
def pitotCmd (pitot_pressure : ℚ) : JObj :=
  [("cmd", JVal.str "set-control"), ("partId", JVal.str "pitot"),
   ("control", JVal.str "pressure"), ("value", JVal.int (pyRound pitot_pressure))]

/-- The static sensor update of one tick:
`{"cmd": "set-control", "partId": "static", "control": "pressure",
"value": STATIC_PRESSURE}` — the integer constant, sent as is. -/
def staticCmd : JObj :=
  [("cmd", JVal.str "set-control"), ("partId", JVal.str "static"),
   ("control", JVal.str "pressure"), ("value", JVal.int 101325)]

/-- The per-tick state poll: `{"cmd": "get-state"}`. -/
def getStateCmd : JObj :=
  [("cmd", JVal.str "get-state")]

/-- The three frames a connected tick tries to send, in program order, as a
function of the airspeed the tick's physics step produced. -/
def tickCmds (v : ℚ) : List JObj :=
  [pitotCmd (STATIC_PRESSURE + compute_dynamic_pressure v), staticCmd, getStateCmd]

/-- What one iteration of `sim_loop` leaves behind: the simulator state, the
frames whose `ws.send` was reached, and whether the tick did its work (the
disconnected branch hits `continue` before everything, including `tick += 1`). -/
structure TickOut where
  state : SimState
  sent : List JObj
  advanced : Bool
deriving DecidableEq

/-- One iteration of the `while running` loop of `sim_loop` (the `time.sleep`
is dropped). `ws_connected` is the flag the iteration reads; `failAt` models
the transport: `none` when every `ws.send` succeeds, `some k` when the k-th
send (0-based) raises. All three sends sit in a single `try` block whose
handler is `pass`, so a raise at index k stops the sends after the first
`k + 1` attempts but the iteration itself continues to `tick += 1`. -/
def sim_tick (ws_connected : Bool) (failAt : Option Nat) (s : SimState) : TickOut :=
  if ws_connected = false then ⟨s, [], false⟩
  else
    let v := physics_step s.airspeed_ms s.throttle_angle dt
    let s2 : SimState := { s with airspeed_ms := v }
    let cmds := tickCmds v
    let sent := match failAt with
      | none => cmds
      | some k => cmds.take (k + 1)
    ⟨s2, sent, true⟩

/-- A physics step is Euler integration followed by clamping at zero: the new
airspeed is the maximum of `v + accel * dt` and 0. -/
lemma physics_step_eq_max (v p dtv : ℚ) :
    physics_step v p dtv = max (v + (compute_thrust p - compute_drag v) / MASS * dtv) 0 := by
  simp only [physics_step]
  split_ifs with h
  · exact (max_eq_right h.le).symm
  · exact (max_eq_left (not_lt.mp h)).symm

/-- Peeling one element off a last-element fold: the head only matters as the
new default when the tail is empty. -/
lemma elim_getLast?_cons {α β : Type} (a : α) (l : List α) (t : β) (g : α → β) :
    ((a :: l).getLast?).elim t g = (l.getLast?).elim (g a) g := by
  induction l generalizing a t with
  | nil => rfl
  | cons b l ih =>
    rw [List.getLast?_cons_cons, ih b t, ih b (g a)]

/-- The servo loop of the `state` branch computes: the `angle` (defaulted to 0)
of the last `wokwi-servo`-typed part in iteration order, or the previous
throttle angle when the snapshot has no such part. -/
lemma servoFold_eq (t : ℚ) (parts : List (String × PartInfo)) :
    servoFold t parts =
      ((parts.filter fun p => p.2.ptype == "wokwi-servo").getLast?).elim t
        (fun p => p.2.angle.getD 0) := by
  induction parts generalizing t with
  | nil => rfl
  | cons p ps ih =>
    have hstep : servoFold t (p :: ps)
        = servoFold (if p.2.ptype = "wokwi-servo" then p.2.angle.getD 0 else t) ps := rfl
    rw [hstep, List.filter_cons]
    by_cases h : p.2.ptype = "wokwi-servo"
    · rw [if_pos h, if_pos (by simp [h]), ih, elim_getLast?_cons]
    · rw [if_neg h, if_neg (by simp [h]), ih]

/-- C1, counterexample: with the connection flag false, a tick leaves the
airspeed untouched (here 10 m/s at full throttle), while a physics step from
that state would change it — so a disconnected tick does not advance physics,
contrary to the claim. -/
theorem C1_counterexample :
    (sim_tick false none ⟨10, 180, []⟩).state.airspeed_ms = 10 ∧
    physics_step 10 180 dt ≠ 10 := by
  refine ⟨rfl, ?_⟩
  norm_num [physics_step, compute_thrust, compute_drag,
    IDLE_THRUST, MAX_THRUST, MASS, RHO, CD_A, dt, abs_of_nonneg]

/-- C1, amended: once the connected flag is false, every tick skips all of its
work — no physics step, no sends, no tick-counter advance — leaving the state
frozen; while connected, each tick does advance the airspeed by one physics
step at the last-known throttle position. -/
theorem C1_amended (failAt : Option Nat) (s : SimState) :
    sim_tick false failAt s = ⟨s, [], false⟩ ∧
    (sim_tick true failAt s).state.airspeed_ms
      = physics_step s.airspeed_ms s.throttle_angle dt :=
  ⟨rfl, rfl⟩

/-- C2, counterexample: at zero throttle the thrust is the idle thrust 50 N,
not zero, so airspeed 0 is not a fixed point — a step from rest at zero
throttle yields 1/360 m/s, not 0. -/
theorem C2_counterexample :
    physics_step 0 0 dt = 1 / 360 ∧ physics_step 0 0 dt ≠ 0 := by
  have h : physics_step 0 0 dt = 1 / 360 := by
    norm_num [physics_step, compute_thrust, compute_drag,
      IDLE_THRUST, MAX_THRUST, MASS, RHO, CD_A, dt]
  exact ⟨h, by rw [h]; norm_num⟩

/-- C2, amended: at zero throttle a step strictly decreases the airspeed
exactly while drag exceeds the idle thrust; from rest the step instead
produces the positive airspeed `IDLE_THRUST / MASS * dt`, so 0 is not a rest
state of the model. -/
theorem C2_amended (v dtv : ℚ) (hdt : 0 < dtv) :
    (IDLE_THRUST < compute_drag v → physics_step v 0 dtv < v) ∧
    physics_step 0 0 dtv = IDLE_THRUST / MASS * dtv ∧
    0 < physics_step 0 0 dtv := by
  have hth : compute_thrust 0 = IDLE_THRUST := by
    norm_num [compute_thrust]
  have hd0 : compute_drag 0 = 0 := by norm_num [compute_drag]
  have key : physics_step 0 0 dtv = IDLE_THRUST / MASS * dtv := by
    rw [physics_step_eq_max, hth, hd0, sub_zero, zero_add]
    exact max_eq_left (mul_nonneg
      (div_nonneg (by norm_num [IDLE_THRUST]) (by norm_num [MASS])) hdt.le)
  refine ⟨fun hdrag => ?_, key, ?_⟩
  · have hv : 0 < v := by
      by_contra hle
      push_neg at hle
      have hd : compute_drag v ≤ 0 := by
        simp only [compute_drag, RHO, CD_A]
        rw [abs_of_nonpos hle]
        nlinarith [mul_self_nonneg v]
      have hpos : (0:ℚ) < IDLE_THRUST := by norm_num [IDLE_THRUST]
      linarith
    rw [physics_step_eq_max, hth]
    have hq : (IDLE_THRUST - compute_drag v) / MASS < 0 :=
      div_neg_of_neg_of_pos (by linarith) (by norm_num [MASS])
    have : (IDLE_THRUST - compute_drag v) / MASS * dtv < 0 :=
      mul_neg_of_neg_of_pos hq hdt
    exact max_lt (by linarith) hv
  · rw [key]
    exact mul_pos (div_pos (by norm_num [IDLE_THRUST]) (by norm_num [MASS])) hdt

/-- C2, witness: at airspeed 10 m/s the drag (73.5 N) exceeds the idle thrust,
and a zero-throttle step with dt = 0.05 s strictly decreases the airspeed. -/
theorem C2_witness :
    IDLE_THRUST < compute_drag 10 ∧ physics_step 10 0 (1 / 20) < 10 := by
  have h1 : IDLE_THRUST < compute_drag 10 := by
    norm_num [IDLE_THRUST, compute_drag, RHO, CD_A, abs_of_nonneg]
  exact ⟨h1, (C2_amended 10 (1 / 20) (by norm_num)).1 h1⟩

/-- C3: a physics step is Euler integration `v + accel * dt` with every
negative result clamped to exactly 0, so the produced airspeed is non-negative
for every starting airspeed, throttle position and timestep. -/
theorem C3_step_nonneg (v p dtv : ℚ) :
    physics_step v p dtv = max (v + (compute_thrust p - compute_drag v) / MASS * dtv) 0 ∧
    0 ≤ physics_step v p dtv := by
  refine ⟨physics_step_eq_max v p dtv, ?_⟩
  rw [physics_step_eq_max]
  exact le_max_right _ 0

/-- C4: thrust is the linear interpolation between idle and max thrust over
the throttle position clamped to [0, 180]; below 0 it equals the thrust at 0
and above 180 it equals the thrust at 180. -/
theorem C4_thrust_lerp_clamped (p : ℚ) :
    compute_thrust p = IDLE_THRUST + max 0 (min p 180) / 180 * (MAX_THRUST - IDLE_THRUST) ∧
    (p < 0 → compute_thrust p = compute_thrust 0) ∧
    (180 < p → compute_thrust p = compute_thrust 180) := by
  refine ⟨rfl, fun h => ?_, fun h => ?_⟩
  · unfold compute_thrust
    rw [min_eq_left (by linarith : p ≤ 180), max_eq_left h.le,
        min_eq_left (by norm_num : (0:ℚ) ≤ 180), max_self]
  · unfold compute_thrust
    rw [min_eq_right h.le, min_self, max_eq_right (by norm_num : (0:ℚ) ≤ 180)]

/-- C5: with the program's constants, one step from rest at full throttle
gives thrust exactly 2500 N, drag exactly 0, acceleration 2500/900 = 25/9 m/s²
and new airspeed 25/9 * 1/20 = 5/36 ≈ 0.1389 m/s. -/
theorem C5_first_step_values :
    compute_thrust 180 = 2500 ∧ compute_drag 0 = 0 ∧
    (compute_thrust 180 - compute_drag 0) / MASS = 25 / 9 ∧
    physics_step 0 180 dt = 5 / 36 := by
  norm_num [physics_step, compute_thrust, compute_drag,
    IDLE_THRUST, MAX_THRUST, MASS, RHO, CD_A, dt]

/-- C6, counterexample: a snapshot reporting a servo angle of 200 stores 200
as the throttle position — the write is not clamped to [0, 180]. -/
theorem C6_counterexample :
    (on_message ⟨0, 0, []⟩
      (Frame.state [("servo1", ⟨"wokwi-servo", some 200⟩)] [])).throttle_angle = 200 ∧
    ¬ ((on_message ⟨0, 0, []⟩
      (Frame.state [("servo1", ⟨"wokwi-servo", some 200⟩)] [])).throttle_angle ≤ 180) := by
  have h : (on_message ⟨0, 0, []⟩
      (Frame.state [("servo1", ⟨"wokwi-servo", some 200⟩)] [])).throttle_angle = 200 := rfl
  refine ⟨h, ?_⟩
  rw [h]
  norm_num

/-- C6, amended: the snapshot's servo angle is stored into the throttle
position exactly as received, with no clamping at the write; the clamp to
[0, 180] is applied only when the value is consumed by `compute_thrust`, whose
result agrees with the one on the clamped angle. -/
theorem C6_amended (s : SimState) (pid : String) (a : ℚ) (lines : List String) :
    on_message s (Frame.state [(pid, ⟨"wokwi-servo", some a⟩)] lines) =
      { s with throttle_angle := a, last_serial_lines := lines } ∧
    compute_thrust a = compute_thrust (max 0 (min a 180)) := by
  constructor
  · simp [on_message, servoFold]
  · unfold compute_thrust
    rw [min_eq_left (max_le (by norm_num : (0:ℚ) ≤ 180) (min_le_right a 180)),
        ← max_assoc, max_self]

/-- C7, counterexample: when the first (pitot) send raises, the static update
and the state poll of that tick are never attempted — only one frame reaches
`ws.send` — although the tick itself still completes. -/
theorem C7_counterexample :
    (sim_tick true (some 0) ⟨0, 0, []⟩).sent.length = 1 ∧
    staticCmd ∉ (sim_tick true (some 0) ⟨0, 0, []⟩).sent ∧
    getStateCmd ∉ (sim_tick true (some 0) ⟨0, 0, []⟩).sent ∧
    (sim_tick true (some 0) ⟨0, 0, []⟩).advanced = true := by
  exact ⟨rfl, by decide, by decide, rfl⟩

/-- C7, amended: a connected tick with no transmission failure sends exactly
the three frames pitot update, static update, state poll, in that order after
the physics step; the sends share one try block, so a failure at index k cuts
the tick's traffic to the first k+1 attempts, but the tick is not aborted: the
state advance and the tick's completion are the same as in the failure-free
tick. -/
theorem C7_amended (s : SimState) (k : Nat) :
    (sim_tick true none s).sent =
      [pitotCmd (STATIC_PRESSURE + compute_dynamic_pressure
        (physics_step s.airspeed_ms s.throttle_angle dt)), staticCmd, getStateCmd] ∧
    (sim_tick true (some k) s).sent = ((sim_tick true none s).sent).take (k + 1) ∧
    (sim_tick true (some k) s).state = (sim_tick true none s).state ∧
    (sim_tick true (some k) s).advanced = true :=
  ⟨rfl, rfl, rfl, rfl⟩

/-- C8: a malformed inbound frame is a complete no-op — the handler returns
the state unchanged — and no inbound frame of any kind ever changes the
airspeed. -/
theorem C8_malformed_frame_noop (s : SimState) :
    on_message s Frame.malformed = s ∧
    ∀ f : Frame, (on_message s f).airspeed_ms = s.airspeed_ms := by
  refine ⟨rfl, fun f => ?_⟩
  cases f <;> rfl

/-- C9, counterexample: none of the three outbound frames carries a key named
"command" — the command key of the wire protocol is "cmd". -/
theorem C9_counterexample :
    "command" ∉ (pitotCmd 101325).map Prod.fst ∧
    "command" ∉ staticCmd.map Prod.fst ∧
    "command" ∉ getStateCmd.map Prod.fst ∧
    ("cmd", JVal.str "set-control") ∈ pitotCmd 101325 :=
  ⟨by decide, by decide, by decide, by decide⟩

/-- C9, amended: each connected tick serializes exactly the three objects
with key "cmd" (not "command"): the pitot set-control carrying the rounded
total-pressure pascal reading of the new airspeed, the static set-control
carrying the integer 101325, and the get-state poll. -/
theorem C9_amended (s : SimState) :
    (sim_tick true none s).sent =
      [[("cmd", JVal.str "set-control"), ("partId", JVal.str "pitot"),
        ("control", JVal.str "pressure"),
        ("value", JVal.int (pyRound (STATIC_PRESSURE + compute_dynamic_pressure
          (physics_step s.airspeed_ms s.throttle_angle dt))))],
       [("cmd", JVal.str "set-control"), ("partId", JVal.str "static"),
        ("control", JVal.str "pressure"), ("value", JVal.int 101325)],
       [("cmd", JVal.str "get-state")]] := rfl

/-- C10: the throttle written by a snapshot is the defaulted angle of the last
servo-typed part in iteration order (the previous value survives only when no
servo part is present); in particular a servo part without an angle field
forces the throttle to the default 0, and with two servo parts the second
one's angle wins. -/
theorem C10_servo_extraction (s : SimState) (parts : List (String × PartInfo))
    (lines : List String) :
    (on_message s (Frame.state parts lines)).throttle_angle =
      ((parts.filter fun p => p.2.ptype == "wokwi-servo").getLast?).elim
        s.throttle_angle (fun p => p.2.angle.getD 0) ∧
    (∀ pid : String, (on_message s
      (Frame.state [(pid, ⟨"wokwi-servo", none⟩)] lines)).throttle_angle = 0) ∧
    (∀ (pid1 pid2 : String) (a1 a2 : Option ℚ), (on_message s (Frame.state
        [(pid1, ⟨"wokwi-servo", a1⟩), (pid2, ⟨"wokwi-servo", a2⟩)] lines)).throttle_angle
      = a2.getD 0) :=
  ⟨servoFold_eq s.throttle_angle parts, fun _ => rfl, fun _ _ _ _ => rfl⟩

end AirplaneSim
